import Mathlib

/-!
Verification of the niri_workspaces waybar module (src/src/lib.rs) against its
natural-language specification.  The Rust source is shallowly embedded below:
pure fragments become Lean functions, the IPC boundary becomes explicit
backend-reply records, and `HashMap<u64, usize>` occupancy maps become total
functions `Nat → Nat` (the code always reads them with `.unwrap_or(0)`).
-/

namespace NiriWorkspaces

/-- Embedding of `niri_ipc::Workspace` (the fields used by the module). -/
structure Workspace where
  id : Nat
  idx : Nat
  name : Option String
  output : Option String
  is_active : Bool
  is_focused : Bool
  is_urgent : Bool
  active_window_id : Option Nat
deriving DecidableEq

/-- Embedding of `niri_ipc::Window` (the fields used by the module). -/
structure Window where
  app_id : Option String
  title : Option String
  workspace_id : Option Nat
deriving DecidableEq

/-- Embedding of the `IgnoreRule` config struct (lib.rs lines 11-14). -/
structure IgnoreRule where
  app_id : Option String
  title : Option String
deriving DecidableEq

/-- Embedding of the per-window ignore-rule test inside `get_workspace_info`
(lib.rs lines 663-671): for one rule, `rule.app_id.as_ref().map_or(true, ...)`
and likewise for `title`, conjoined. -/
def rule_matches (rule : IgnoreRule) (window : Window) : Bool :=
  let app_id_matches :=
    (rule.app_id.map (fun app_id =>
      (window.app_id.map (fun w_app_id => w_app_id == app_id)).getD false)).getD true
  let title_matches :=
    (rule.title.map (fun title =>
      (window.title.map (fun w_title => w_title == title)).getD false)).getD true
  app_id_matches && title_matches

/-- `ignore_rules.iter().any(|rule| ...)` from lib.rs line 663. -/
def should_ignore (ignore_rules : List IgnoreRule) (window : Window) : Bool :=
  ignore_rules.any (fun rule => rule_matches rule window)

/-- Embedding of the occupancy-count loop of `get_workspace_info`
(lib.rs lines 660-678).  The Rust `HashMap<u64, usize>` is modelled as a total
function `Nat → Nat`; a missing key is the value `0`, matching every read site
`window_counts.get(&id).copied().unwrap_or(0)`. -/
def count_windows (ignore_rules : List IgnoreRule) (windows : List Window) : Nat → Nat :=
  windows.foldl
    (fun window_counts window =>
      if !should_ignore ignore_rules window then
        match window.workspace_id with
        | some ws_id => fun id => if id = ws_id then window_counts id + 1 else window_counts id
        | none => window_counts
      else window_counts)
    (fun _ => 0)

/-- The output of the first workspace in fetch order:
`workspaces.first().and_then(|ws| ws.output.clone())`. -/
def first_output (workspaces : List Workspace) : Option String :=
  workspaces.head?.bind (fun ws => ws.output)

/-- The `output_name` computed in `populate_workspaces` (lib.rs lines 50-56):
`None` when `all_outputs` is set, otherwise the first workspace's output. -/
def reference_output (all_outputs : Bool) (workspaces : List Workspace) : Option String :=
  if all_outputs then none else first_output workspaces

/-- The `max_workspace_idx` computed in `populate_workspaces`
(lib.rs lines 59-70): the maximum `idx` among workspaces in output scope with
a positive window count, `.max().unwrap_or(0)`. -/
def max_occupied_idx (all_outputs : Bool) (workspaces : List Workspace)
    (window_counts : Nat → Nat) : Nat :=
  (((workspaces.filter (fun ws =>
      if all_outputs then decide (0 < window_counts ws.id)
      else ws.output == reference_output all_outputs workspaces
             && decide (0 < window_counts ws.id))).map
    (fun ws => ws.idx)).max?).getD 0

/-- The relation `sort_by_key(|ws| ws.idx)` sorts by. -/
def idxLe (a b : Workspace) : Prop := a.idx ≤ b.idx

instance : DecidableRel idxLe := fun a b => Nat.decLe a.idx b.idx

instance : IsTotal Workspace idxLe := ⟨fun a b => Nat.le_total a.idx b.idx⟩

instance : IsTrans Workspace idxLe := ⟨fun _ _ _ h h' => Nat.le_trans h h'⟩

/-- Embedding of the View Builder in `populate_workspaces`
(lib.rs lines 50-95; the `init` event path, lines 354-400, is textually the
same computation): filter by output scope and the occupancy policy, then sort
by `idx`.  Rust's `sort_by_key` is a stable sort by key; it is modelled by
`List.insertionSort`, which is also stable, so the results agree. -/
def build_view (all_outputs show_empty_workspace : Bool) (workspaces : List Workspace)
    (window_counts : Nat → Nat) : List Workspace :=
  let output_name := reference_output all_outputs workspaces
  let max_workspace_idx := max_occupied_idx all_outputs workspaces window_counts
  let our_workspaces := workspaces.filter (fun ws =>
    if !all_outputs && ws.output != output_name then false
    else
      let has_windows := decide (0 < window_counts ws.id)
      if has_windows then true
      else if show_empty_workspace then ws.idx == max_workspace_idx + 1
      else ws.idx == max_workspace_idx + 1 && ws.is_active)
  List.insertionSort idxLe our_workspaces

/-- The per-button rebuild test of the reconciler (lib.rs lines 100-109 and
405-414).  A widget is modelled by the `Option Nat` result of reading its
stored `ws_id` data (`None` when the child is not a button or carries no id,
which the code treats as a mismatch via `map_or(true, ...)`). -/
def need_rebuild (widget_ids : List (Option Nat)) (view : List Workspace) : Bool :=
  widget_ids.length != view.length ||
    (widget_ids.zip view).any (fun p =>
      (p.1.map (fun stored_id => stored_id != p.2.id)).getD true)

/-- The structural effect of one reconciliation pass on the widget-identity
sequence (lib.rs lines 111-139): on rebuild all children are removed and one
button per view entry is created (each ending up with that entry's `ws_id`
data); otherwise the children are left in place and only restyled. -/
def reconcile (widget_ids : List (Option Nat)) (view : List Workspace) : List (Option Nat) :=
  if need_rebuild widget_ids view then view.map (fun ws => some ws.id) else widget_ids

/-- Embedding of the `FormatIcons` config struct (lib.rs lines 18-31).  The
`#[serde(flatten)] named: HashMap<String, String>` map is modelled as a
lookup function `String → Option String` (the code only calls `.get`). -/
structure FormatIcons where
  urgent : Option String
  empty : Option String
  focused : Option String
  active : Option String
  default : Option String
  named : String → Option String

/-- Embedding of `get_format_icon` (lib.rs lines 707-755).  The Rust body is a
sequence of early returns; each `if cond { if let Some(icon) = slot { return
icon } }` becomes one `Option.orElse` link, in the source's order, ending with
`value.to_string()` as the ultimate fallback. -/
def get_format_icon (ws : Workspace) : Option FormatIcons → String → String
  | some icons, value =>
    ((if ws.is_urgent then icons.urgent else none).orElse (fun _ =>
      (if ws.active_window_id.isNone then icons.empty else none).orElse (fun _ =>
        (if ws.is_focused then icons.focused else none).orElse (fun _ =>
          (if ws.is_active then icons.active else none).orElse (fun _ =>
            (match ws.name with
             | some name => icons.named name
             | none => none).orElse (fun _ =>
              (icons.named (toString ws.idx)).orElse (fun _ =>
                icons.default))))))).getD value
  | none, value => value

/-- Specification-side icon resolution, written from the spec's words: the
first configured icon among the applicable categories in the strict order
urgent > empty > focused > active > named-by-name > named-by-index > default,
falling back to the raw display value. -/
def icon_priority_spec (ws : Workspace) (icons : FormatIcons) (value : String) : String :=
  (List.findSome? (fun c => c)
    [if ws.is_urgent then icons.urgent else none,
     if ws.active_window_id.isNone then icons.empty else none,
     if ws.is_focused then icons.focused else none,
     if ws.is_active then icons.active else none,
     (match ws.name with
      | some name => icons.named name
      | none => none),
     icons.named (toString ws.idx),
     icons.default]).getD value

/-- The `size_attr` local of `get_pie_icon` (lib.rs line 684):
`size.map(|s| format!(" size='{}'", s)).unwrap_or_default()`. -/
def pieSizeAttr (size : Option String) : String :=
  match size with
  | some s => " size=\x27" ++ s ++ "\x27"
  | none => ""

/-- Embedding of `get_pie_icon` (lib.rs lines 683-705): a 16-arm match on the
window count producing Pango markup, with the optional size attribute spliced
after the (optional) foreground attribute. -/
def get_pie_icon (count : Nat) (size : Option String) : String :=
  let size_attr := pieSizeAttr size
  match count with
  | 0 => "<span" ++ size_attr ++ ">󰋙 </span>"
  | 1 => "<span" ++ size_attr ++ ">󰫃 </span>"
  | 2 => "<span" ++ size_attr ++ ">󰫄 </span>"
  | 3 => "<span" ++ size_attr ++ ">󰫅 </span>"
  | 4 => "<span" ++ size_attr ++ ">󰫆 </span>"
  | 5 => "<span" ++ size_attr ++ ">󰫇 </span>"
  | 6 => "<span" ++ size_attr ++ ">󰫈 </span>"
  | 7 => "<span foreground=\x27#bf616a\x27" ++ size_attr ++ ">󰫈 </span>"
  | 8 => "<span foreground=\x27#d08770\x27" ++ size_attr ++ ">󰫈 </span>"
  | 9 => "<span foreground=\x27#ebcb8b\x27" ++ size_attr ++ ">󰫈 </span>"
  | 10 => "<span foreground=\x27#a3be8c\x27" ++ size_attr ++ ">󰫈 </span>"
  | 11 => "<span foreground=\x27#81a1c1\x27" ++ size_attr ++ ">󰫈 </span>"
  | 12 => "<span foreground=\x27#b48ead\x27" ++ size_attr ++ ">󰫈 </span>"
  | 13 => "<span foreground=\x27#8b7355\x27" ++ size_attr ++ ">󰫈 </span>"
  | 14 => "<span foreground=\x27#808080\x27" ++ size_attr ++ ">󰫈 </span>"
  | _ => "<span foreground=\x27#000000\x27" ++ size_attr ++ ">󰫈 </span>"

/-- Everything `get_pie_icon` emits before the size attribute: the opening
`<span` plus the count's foreground colour attribute (empty for the neutral
buckets 0-6).  This is a function of the count alone. -/
def pieSpanHead (count : Nat) : String :=
  match count with
  | 0 => "<span"
  | 1 => "<span"
  | 2 => "<span"
  | 3 => "<span"
  | 4 => "<span"
  | 5 => "<span"
  | 6 => "<span"
  | 7 => "<span foreground=\x27#bf616a\x27"
  | 8 => "<span foreground=\x27#d08770\x27"
  | 9 => "<span foreground=\x27#ebcb8b\x27"
  | 10 => "<span foreground=\x27#a3be8c\x27"
  | 11 => "<span foreground=\x27#81a1c1\x27"
  | 12 => "<span foreground=\x27#b48ead\x27"
  | 13 => "<span foreground=\x27#8b7355\x27"
  | 14 => "<span foreground=\x27#808080\x27"
  | _ => "<span foreground=\x27#000000\x27"

/-- Everything `get_pie_icon` emits after the size attribute: `>`, the count's
glyph, the thin space, and `</span>`.  A function of the count alone. -/
def pieSpanTail (count : Nat) : String :=
  match count with
  | 0 => ">󰋙 </span>"
  | 1 => ">󰫃 </span>"
  | 2 => ">󰫄 </span>"
  | 3 => ">󰫅 </span>"
  | 4 => ">󰫆 </span>"
  | 5 => ">󰫇 </span>"
  | 6 => ">󰫈 </span>"
  | _ => ">󰫈 </span>"

/-- The display value of a workspace (lib.rs lines 148-152): its name, or the
decimal rendering of its 1-based index when unnamed. -/
def display_value (ws : Workspace) : String :=
  match ws.name with
  | some name => name
  | none => toString ws.idx

/-- Embedding of the label assembly in `populate_workspaces` (lib.rs lines
146-177; the `init` event path, lines 521-551, is textually the same).  The
host toolkit's `markup_escape_text` is an external collaborator and is passed
in as an abstract function `escape`. -/
def build_label (format : Option String) (ws : Workspace) (icon : String)
    (escape : String → String) : String :=
  let value := display_value ws
  let escaped_value := escape value
  let escaped_name := escape ((ws.name.getD ("")))
  let escaped_index := escape (toString ws.idx)
  let escaped_output := escape ((ws.output.getD ("")))
  match format with
  | some f =>
    ((((f.replace ("\x7bicon\x7d") icon).replace ("\x7bvalue\x7d") escaped_value).replace
        ("\x7bname\x7d") escaped_name).replace
        ("\x7bindex\x7d") escaped_index).replace
        ("\x7boutput\x7d") escaped_output
  | none => icon

/-- Specification-side label assembly, written from the spec's words: the
template with the icon substituted unescaped and the display value (name or
numeric index), the name (empty when absent), the numeric index and the
output (empty when absent) each substituted through the markup escape;
absent a template, the icon alone. -/
def label_spec (format : Option String) (ws : Workspace) (icon : String)
    (escape : String → String) : String :=
  match format with
  | some f =>
    ((((f.replace ("\x7bicon\x7d") icon).replace
        ("\x7bvalue\x7d") (escape (match ws.name with
                                   | some name => name
                                   | none => toString ws.idx))).replace
        ("\x7bname\x7d") (escape (match ws.name with
                                  | some name => name
                                  | none => ""))).replace
        ("\x7bindex\x7d") (escape (toString ws.idx))).replace
        ("\x7boutput\x7d") (escape (match ws.output with
                                    | some out => out
                                    | none => ""))
  | none => icon

/-- Replies the niri IPC backend can produce, as matched by this module:
`Response::Workspaces`, `Response::Windows`, `Response::Handled`, and any
other response shape. -/
inductive Resp
  | workspaces (ws : List Workspace)
  | windows (ws : List Window)
  | handled
  | other
deriving DecidableEq

/-- One fetch round of `get_workspace_info`: the observable outcome of the
`Socket::connect` / `send` / reply sequence for one request.  `Except.error`
covers both a transport failure (connect or send) and an explicit backend
error payload — the code maps all three to `Err(String)`. -/
structure FetchBackend where
  workspacesReply : Except String Resp
  windowsReply : Except String Resp

/-- Embedding of `get_workspace_info` (lib.rs lines 640-681): two reads, each
failing the whole fetch on a transport error, a backend error payload, or a
reply of the wrong type; on success, the workspace list together with the
occupancy map of non-ignored windows. -/
def get_workspace_info (ignore_rules : List IgnoreRule) (b : FetchBackend) :
    Except String (List Workspace × (Nat → Nat)) :=
  match b.workspacesReply with
  | Except.error e => Except.error e
  | Except.ok r =>
    match r with
    | Resp.workspaces workspaces =>
      match b.windowsReply with
      | Except.error e => Except.error e
      | Except.ok r2 =>
        match r2 with
        | Resp.windows windows => Except.ok (workspaces, count_windows ignore_rules windows)
        | _ => Except.error ("Unexpected response type")
    | _ => Except.error ("Unexpected response type")

/-- Write commands the module can issue to the compositor. -/
inductive Command
  | moveWorkspaceToIndex (id : Nat) (index : Nat)
  | focusWorkspace (id : Nat)
deriving DecidableEq

/-- The backend behaviour visible to one `move_workspace_to_index` call:
the reply to the initial `Request::Workspaces` read, whether each of the two
action connections can be established, and the replies on them.  A command is
recorded as issued when its connection was established and the request sent. -/
structure MoveBackend where
  fetchReply : Except String Resp
  moveConnect : Bool
  moveReply : Except String Resp
  focusConnect : Bool
  focusReply : Except String Resp

/-- Embedding of `move_workspace_to_index` (lib.rs lines 854-891).  Returns
the list of action commands issued together with the function's `Result`.
Note the source's refocus block reads
`let mut socket = Socket::connect().map_err(|e| e.to_string())?;`
so a failure to establish the refocus connection propagates as `Err`, while
the refocus send result itself is discarded (`let _ = socket.send(...)`). -/
def move_workspace_to_index (ws_id target_index : Nat) (b : MoveBackend) :
    List Command × Except String Unit :=
  match b.fetchReply with
  | Except.error e => ([], Except.error e)
  | Except.ok r =>
    match r with
    | Resp.workspaces workspaces =>
      let currently_focused := (workspaces.find? (fun w => w.is_focused)).map (fun w => w.id)
      if b.moveConnect then
        let issued := [Command.moveWorkspaceToIndex ws_id target_index]
        match b.moveReply with
        | Except.error e => (issued, Except.error e)
        | Except.ok Resp.handled =>
          match currently_focused with
          | some original_focused =>
            if original_focused != ws_id then
              if b.focusConnect then
                (issued ++ [Command.focusWorkspace original_focused], Except.ok ())
              else
                (issued, Except.error ("connect failed"))
            else (issued, Except.ok ())
          | none => (issued, Except.ok ())
        | Except.ok _ => (issued, Except.error ("Failed to move workspace"))
      else ([], Except.error ("connect failed"))
    | _ => ([], Except.error ("Unexpected response type"))

/-- Embedding of the `connect_drag_end` handler (lib.rs lines 814-832): when
the final position differs from the recorded start position, call
`move_workspace_to_index` with `target_idx = final_pos + 1` (result discarded);
otherwise do nothing.  Returns the commands issued. -/
def drag_end (ws_id start_pos final_pos : Nat) (b : MoveBackend) : List Command :=
  if final_pos != start_pos then (move_workspace_to_index ws_id (final_pos + 1) b).1 else []

/-! ## Helper lemmas (shared across claims) -/

/-- Unfolding one step of the occupancy fold with an arbitrary accumulator. -/
theorem count_windows_foldl (ignore_rules : List IgnoreRule) (windows : List Window)
    (acc : Nat → Nat) (wsid : Nat) :
    (windows.foldl
      (fun window_counts window =>
        if !should_ignore ignore_rules window then
          match window.workspace_id with
          | some ws_id => fun id => if id = ws_id then window_counts id + 1 else window_counts id
          | none => window_counts
        else window_counts)
      acc) wsid
    = acc wsid
      + windows.countP (fun w => w.workspace_id == some wsid && !should_ignore ignore_rules w) := by
  induction windows generalizing acc with
  | nil => simp
  | cons w rest ih =>
    rw [List.foldl_cons, ih, List.countP_cons]
    by_cases hig : should_ignore ignore_rules w
    · simp [hig]
    · cases hid : w.workspace_id with
      | none => simp [hig, hid]
      | some i =>
        by_cases hi : wsid = i
        · subst hi
          simp [hig, hid]
          omega
        · simp [hig, hid, hi, Ne.symm hi]

/-- `List.findSome?` with the identity selector steps through `Option.orElse`. -/
theorem findSome_id_cons (o : Option String) (l : List (Option String)) :
    List.findSome? (fun c => c) (o :: l) = o.orElse (fun _ => List.findSome? (fun c => c) l) := by
  cases o <;> rfl

/-- `Option.orElse` with an always-`none` fallback is the identity. -/
theorem orElse_none_right (o : Option String) : o.orElse (fun _ => none) = o := by
  cases o <;> rfl

/-- `get_pie_icon` splits into a head (span opening plus colour), the size
attribute, and a tail (glyph and closing), with head and tail depending only
on the count. -/
theorem pie_icon_decomp (count : Nat) (size : Option String) :
    get_pie_icon count size = pieSpanHead count ++ pieSizeAttr size ++ pieSpanTail count := by
  rcases Nat.lt_or_ge count 15 with h | h
  · interval_cases count <;> rfl
  · obtain ⟨n, rfl⟩ : ∃ n, count = n + 15 := ⟨count - 15, by omega⟩
    rfl

/-! ## Claim theorems -/

/-- C4: a window matches an ignore rule iff each present field of the rule
equals the window's corresponding field (absent fields are wildcards); a rule
with both fields absent matches every window; and a window with a known
workspace id contributes to that workspace's occupancy count iff it matches
no rule. -/
theorem ignore_rule_occupancy (ignore_rules : List IgnoreRule) (windows : List Window)
    (rule : IgnoreRule) (window : Window) (wsid : Nat) :
    (rule_matches rule window = true ↔
      ((∀ a, rule.app_id = some a → window.app_id = some a)
        ∧ (∀ t, rule.title = some t → window.title = some t)))
    ∧ (rule.app_id = none → rule.title = none → rule_matches rule window = true)
    ∧ count_windows ignore_rules windows wsid =
        windows.countP (fun w => w.workspace_id == some wsid && !should_ignore ignore_rules w) := by
  refine ⟨?_, ?_, ?_⟩
  · unfold rule_matches
    cases hra : rule.app_id <;> cases hrt : rule.title <;>
      cases hwa : window.app_id <;> cases hwt : window.title <;>
        simp [hra, hrt, hwa, hwt]
  · intro ha ht
    unfold rule_matches
    simp [ha, ht]
  · have h := count_windows_foldl ignore_rules windows (fun _ => 0) wsid
    simpa [count_windows] using h

/-- C4 witness: a rule whose `app_id` is present and equal matches a window
with matching `app_id` and mismatching-irrelevant `title`, and occupancy
counts only the non-ignored windows. -/
theorem ignore_rule_occupancy_witness :
    (rule_matches ⟨some ("firefox"), none⟩ ⟨some ("firefox"), some ("t"), some 3⟩ = true ↔
      ((∀ a, (some ("firefox") : Option String) = some a →
          (some ("firefox") : Option String) = some a)
        ∧ (∀ t, (none : Option String) = some t → (some ("t") : Option String) = some t)))
    ∧ ((some ("firefox") : Option String) = none → (none : Option String) = none →
        rule_matches ⟨some ("firefox"), none⟩ ⟨some ("firefox"), some ("t"), some 3⟩ = true)
    ∧ count_windows [⟨some ("firefox"), none⟩]
        [⟨some ("firefox"), some ("t"), some 3⟩, ⟨some ("emacs"), none, some 3⟩] 3 =
        [⟨some ("firefox"), some ("t"), some 3⟩,
         (⟨some ("emacs"), none, some 3⟩ : Window)].countP
          (fun w => w.workspace_id == some 3 && !should_ignore [⟨some ("firefox"), none⟩] w) :=
  ignore_rule_occupancy [⟨some ("firefox"), none⟩]
    [⟨some ("firefox"), some ("t"), some 3⟩, ⟨some ("emacs"), none, some 3⟩]
    ⟨some ("firefox"), none⟩ ⟨some ("firefox"), some ("t"), some 3⟩ 3

/-- C1: the View Builder includes a workspace in the view iff it is one of the
fetched workspaces, it is in the reference output scope (any output when
`all_outputs`, otherwise its output equals the first fetched snapshot's
output), and it either has positive occupancy or sits at
`max_occupied_idx + 1` while `show_empty_workspace` is set or it is the
active workspace. -/
theorem build_view_membership (all_outputs show_empty : Bool) (wss : List Workspace)
    (counts : Nat → Nat) (ws : Workspace) :
    ws ∈ build_view all_outputs show_empty wss counts ↔
      ws ∈ wss
      ∧ (all_outputs = true ∨ ws.output = first_output wss)
      ∧ (0 < counts ws.id
         ∨ (ws.idx = max_occupied_idx all_outputs wss counts + 1
            ∧ (show_empty = true ∨ ws.is_active = true))) := by
  unfold build_view
  rw [List.mem_insertionSort, List.mem_filter]
  refine and_congr_right fun _ => ?_
  cases all_outputs <;> cases show_empty <;>
    by_cases hout : ws.output = first_output wss <;>
      by_cases hw : 0 < counts ws.id <;>
        by_cases hidx : ws.idx = max_occupied_idx false wss counts + 1 <;>
          by_cases hidx2 : ws.idx = max_occupied_idx true wss counts + 1 <;>
            cases hact : ws.is_active <;>
              simp_all [reference_output]

/-- C5 (amended): when the fetched snapshot list carries pairwise-distinct
workspace ids — the compositor's invariant — the view produced by the View
Builder is sorted ascending by `idx` and contains no two entries with the
same workspace id. -/
theorem build_view_sorted_nodup (all_outputs show_empty : Bool) (wss : List Workspace)
    (counts : Nat → Nat) (hids : (wss.map (fun w => w.id)).Nodup) :
    List.Sorted idxLe (build_view all_outputs show_empty wss counts)
    ∧ ((build_view all_outputs show_empty wss counts).map (fun w => w.id)).Nodup := by
  constructor
  · exact List.sorted_insertionSort idxLe _
  · unfold build_view
    apply (((List.perm_insertionSort idxLe _).map (fun w => w.id)).nodup_iff).2
    exact hids.sublist ((List.filter_sublist wss).map (fun w => w.id))

/-- C5 witness: on a concrete two-workspace fetch with distinct ids the view
is sorted by `idx` and duplicate-free. -/
theorem build_view_sorted_nodup_witness :
    List.Sorted idxLe
      (build_view false true
        [⟨2, 2, none, none, true, false, false, none⟩,
         ⟨1, 1, none, none, false, true, false, some 9⟩] (fun _ => 1))
    ∧ ((build_view false true
        [⟨2, 2, none, none, true, false, false, none⟩,
         ⟨1, 1, none, none, false, true, false, some 9⟩] (fun _ => 1)).map
        (fun w => w.id)).Nodup :=
  build_view_sorted_nodup false true
    [⟨2, 2, none, none, true, false, false, none⟩,
     ⟨1, 1, none, none, false, true, false, some 9⟩] (fun _ => 1) (by decide)

/-- C5 counterexample: quantified over every input snapshot list, the claim
fails — feeding the builder a list that repeats one workspace (same id)
yields a view with two entries of the same id. -/
theorem build_view_dup_ids_counterexample :
    ¬ (((build_view false true
          [⟨1, 1, none, none, false, true, false, none⟩,
           ⟨1, 1, none, none, false, true, false, none⟩] (fun _ => 1)).map
          (fun w => w.id)).Nodup) := by
  decide

/-- C2: the reconciler decides an in-place update (no widget destroyed or
created) exactly when the stored widget-id sequence coincides positionally
with the view's id sequence; any length difference or positional id mismatch
forces a full rebuild. -/
theorem reconcile_rebuild_iff (widget_ids : List (Option Nat)) (view : List Workspace) :
    (need_rebuild widget_ids view = false ↔ widget_ids = view.map (fun ws => some ws.id))
    ∧ (need_rebuild widget_ids view = false → reconcile widget_ids view = widget_ids) := by
  constructor
  · induction widget_ids generalizing view with
    | nil => cases view <;> simp [need_rebuild]
    | cons a as ih =>
      cases view with
      | nil => simp [need_rebuild]
      | cons v vs =>
        have h := ih vs
        simp only [need_rebuild, List.length_cons, List.zip_cons_cons, List.any_cons,
          Bool.or_eq_false_iff, bne_eq_false_iff_eq, Nat.succ.injEq, List.map_cons,
          List.cons.injEq] at h ⊢
        cases a with
        | none => simp
        | some stored =>
          constructor
          · rintro ⟨hlen, hpair, hrest⟩
            simp at hpair
            exact ⟨by simp [hpair], h.1 ⟨hlen, hrest⟩⟩
          · rintro ⟨hhead, htail⟩
            have h2 := h.2 htail
            simp at hhead
            exact ⟨h2.1, by simp [hhead], h2.2⟩
  · intro h
    unfold reconcile
    rw [if_neg (by simp [h])]

/-- C2 witness: a widget list positionally matching the view's ids is left in
place, and the no-rebuild decision coincides with sequence equality. -/
theorem reconcile_rebuild_iff_witness :
    (need_rebuild [some 5, some 7]
        [⟨5, 1, none, none, false, false, false, none⟩,
         ⟨7, 2, none, none, false, false, false, none⟩] = false ↔
      [some 5, some 7] =
        ([⟨5, 1, none, none, false, false, false, none⟩,
          (⟨7, 2, none, none, false, false, false, none⟩ : Workspace)].map
          (fun ws => some ws.id)))
    ∧ (need_rebuild [some 5, some 7]
        [⟨5, 1, none, none, false, false, false, none⟩,
         ⟨7, 2, none, none, false, false, false, none⟩] = false →
        reconcile [some 5, some 7]
          [⟨5, 1, none, none, false, false, false, none⟩,
           ⟨7, 2, none, none, false, false, false, none⟩] = [some 5, some 7]) :=
  reconcile_rebuild_iff [some 5, some 7]
    [⟨5, 1, none, none, false, false, false, none⟩,
     ⟨7, 2, none, none, false, false, false, none⟩]

/-- C6: with an icon set configured, icon resolution returns the icon of the
highest-priority applicable and configured category, in the strict order
urgent > empty > focused > active > named-by-workspace-name >
named-by-index-string > default, falling back to the raw display value; this
holds in particular for workspaces matching several categories at once. -/
theorem format_icon_priority (ws : Workspace) (icons : FormatIcons) (value : String) :
    get_format_icon ws (some icons) value = icon_priority_spec ws icons value := by
  simp only [get_format_icon]
  unfold icon_priority_spec
  cases hc1 : (if ws.is_urgent = true then icons.urgent else none) with
  | some i => rfl
  | none =>
  cases hc2 : (if ws.active_window_id.isNone = true then icons.empty else none) with
  | some i => rfl
  | none =>
  cases hc3 : (if ws.is_focused = true then icons.focused else none) with
  | some i => rfl
  | none =>
  cases hc4 : (if ws.is_active = true then icons.active else none) with
  | some i => rfl
  | none =>
  cases hc5 : (match ws.name with
               | some name => icons.named name
               | none => none) with
  | some i => rfl
  | none =>
  cases hc6 : icons.named (toString ws.idx) with
  | some i => rfl
  | none =>
  cases hc7 : icons.default with
  | some i => rfl
  | none => rfl

/-- C7 (amended): the gradient icon is a deterministic 16-bucket mapping of
the window count: count 0 gives the empty hexagon, counts 0-6 give uncoloured
glyphs (no foreground attribute), counts 7-14 give EIGHT distinct colours in
a fixed ascending order, every count ≥ 15 gives exactly count 15's output,
and the mapping is injective on counts 0 through 15. -/
theorem pie_icon_gradient :
    get_pie_icon 0 none = "<span>󰋙 </span>"
    ∧ (∀ c, c ≤ 6 → get_pie_icon c none = "<span" ++ pieSpanTail c)
    ∧ ((List.range 8).map (fun i => pieSpanHead (7 + i)) =
        ["<span foreground=\x27#bf616a\x27", "<span foreground=\x27#d08770\x27",
         "<span foreground=\x27#ebcb8b\x27", "<span foreground=\x27#a3be8c\x27",
         "<span foreground=\x27#81a1c1\x27", "<span foreground=\x27#b48ead\x27",
         "<span foreground=\x27#8b7355\x27", "<span foreground=\x27#808080\x27"])
    ∧ ((List.range 8).map (fun i => pieSpanHead (7 + i))).Nodup
    ∧ (∀ c s, 15 ≤ c → get_pie_icon c s = get_pie_icon 15 s)
    ∧ ((List.range 16).map (fun c => get_pie_icon c none)).Nodup := by
  refine ⟨rfl, by decide, by decide, by decide, ?_, by decide⟩
  intro c s h
  obtain ⟨n, rfl⟩ : ∃ n, c = n + 15 := ⟨c - 15, by omega⟩
  rfl

/-- C7 witness: count 16 renders exactly as count 15 does, and count 3 is an
uncoloured glyph. -/
theorem pie_icon_gradient_witness :
    get_pie_icon 16 (some ("12pt")) = get_pie_icon 15 (some ("12pt"))
    ∧ get_pie_icon 3 none = "<span" ++ pieSpanTail 3 :=
  ⟨pie_icon_gradient.2.2.2.2.1 16 (some ("12pt")) (by decide),
   pie_icon_gradient.2.1 3 (by decide)⟩

/-- C7 counterexample: counts 7-14 do not map to SEVEN distinct colours — the
eight outputs (which differ only in their colour attribute) are pairwise
distinct, so the number of distinct colours over counts 7-14 is eight. -/
theorem pie_icon_not_seven_colors :
    ¬ ((((List.range 8).map (fun i => get_pie_icon (7 + i) none)).dedup.length) = 7) := by
  decide

/-- C10: the configured icon-size string is embedded verbatim and unescaped
inside the span's size attribute, the attribute is omitted entirely when no
size is configured, and the remainder of the output (colour and glyph)
depends only on the window count. -/
theorem pie_icon_size_passthrough (count : Nat) (s : String) :
    get_pie_icon count (some s) =
      pieSpanHead count ++ (" size=\x27" ++ s ++ "\x27") ++ pieSpanTail count
    ∧ get_pie_icon count none = pieSpanHead count ++ pieSpanTail count := by
  constructor
  · exact pie_icon_decomp count (some s)
  · have h := pie_icon_decomp count none
    rw [h, show pieSizeAttr none = "" from rfl, String.append_empty]

/-- C8: with a format template configured the widget label is the template
with the icon substituted unescaped and the display value, name, numeric
index and output substituted through the markup escape; without a template
the label is the icon alone. -/
theorem label_assembly (format : Option String) (ws : Workspace) (icon : String)
    (escape : String → String) :
    build_label format ws icon escape = label_spec format ws icon escape := by
  cases format with
  | none => rfl
  | some f =>
    cases hn : ws.name <;> cases ho : ws.output <;>
      simp [build_label, label_spec, display_value, hn, ho]

/-- C9: the fetch returns `Ok` exactly when both reads come back with a reply
of the expected type, and then carries the complete workspace list together
with the complete occupancy map; any transport failure, backend error payload
or mismatched response type on either read aborts the whole fetch with an
error, surfacing no partial result. -/
theorem get_workspace_info_contract (ignore_rules : List IgnoreRule) (b : FetchBackend) :
    ((∃ r, get_workspace_info ignore_rules b = Except.ok r) ↔
      (∃ wss wins, b.workspacesReply = Except.ok (Resp.workspaces wss)
        ∧ b.windowsReply = Except.ok (Resp.windows wins)))
    ∧ (∀ wss wins, b.workspacesReply = Except.ok (Resp.workspaces wss) →
        b.windowsReply = Except.ok (Resp.windows wins) →
        get_workspace_info ignore_rules b =
          Except.ok (wss, count_windows ignore_rules wins)) := by
  obtain ⟨wq, wn⟩ := b
  cases wq with
  | error e => simp [get_workspace_info]
  | ok r =>
    cases r with
    | workspaces wss0 =>
      cases wn with
      | error e => simp [get_workspace_info]
      | ok r2 => cases r2 <;> simp [get_workspace_info]
    | windows w => simp [get_workspace_info]
    | handled => simp [get_workspace_info]
    | other => simp [get_workspace_info]

/-- C9 witness: a successful pair of reads yields `Ok` with the fetched
workspace list and the derived occupancy map. -/
theorem get_workspace_info_contract_witness :
    ((∃ r, get_workspace_info []
        ⟨Except.ok (Resp.workspaces [⟨1, 1, none, none, true, true, false, some 4⟩]),
         Except.ok (Resp.windows [⟨some ("firefox"), none, some 1⟩])⟩ = Except.ok r) ↔
      (∃ wss wins,
        (Except.ok (Resp.workspaces [⟨1, 1, none, none, true, true, false, some 4⟩])
          : Except String Resp) = Except.ok (Resp.workspaces wss)
        ∧ (Except.ok (Resp.windows [⟨some ("firefox"), none, some 1⟩])
          : Except String Resp) = Except.ok (Resp.windows wins)))
    ∧ (∀ wss wins,
        (Except.ok (Resp.workspaces [⟨1, 1, none, none, true, true, false, some 4⟩])
          : Except String Resp) = Except.ok (Resp.workspaces wss) →
        (Except.ok (Resp.windows [⟨some ("firefox"), none, some 1⟩])
          : Except String Resp) = Except.ok (Resp.windows wins) →
        get_workspace_info []
          ⟨Except.ok (Resp.workspaces [⟨1, 1, none, none, true, true, false, some 4⟩]),
           Except.ok (Resp.windows [⟨some ("firefox"), none, some 1⟩])⟩ =
          Except.ok (wss, count_windows [] wins)) :=
  get_workspace_info_contract []
    ⟨Except.ok (Resp.workspaces [⟨1, 1, none, none, true, true, false, some 4⟩]),
     Except.ok (Resp.windows [⟨some ("firefox"), none, some 1⟩])⟩

/-- C3 (amended): a drag ending at its start position issues no backend
command.  A drag ending at a different position, when the workspace read
succeeds and the move command is sent and acknowledged, issues exactly one
`MoveWorkspaceToIndex` with `target_idx = final_position + 1`, followed by a
`FocusWorkspace` exactly when the previously focused workspace differs from
the dragged one AND the refocus connection can be established; the refocus
send outcome never affects the result, but a refocus connection failure does:
the call then returns an error despite the successful move. -/
theorem drag_end_protocol (ws_id start_pos final_pos : Nat) (b : MoveBackend)
    (wss : List Workspace)
    (hne : final_pos ≠ start_pos)
    (hfetch : b.fetchReply = Except.ok (Resp.workspaces wss))
    (hconn : b.moveConnect = true)
    (hack : b.moveReply = Except.ok Resp.handled) :
    drag_end ws_id start_pos start_pos b = []
    ∧ drag_end ws_id start_pos final_pos b =
        Command.moveWorkspaceToIndex ws_id (final_pos + 1) ::
          (match (wss.find? (fun w => w.is_focused)).map (fun w => w.id) with
           | some f =>
             if f ≠ ws_id ∧ b.focusConnect = true then [Command.focusWorkspace f] else []
           | none => [])
    ∧ ((move_workspace_to_index ws_id (final_pos + 1) b).2 = Except.ok () ↔
        ¬ ∃ f, (wss.find? (fun w => w.is_focused)).map (fun w => w.id) = some f
             ∧ f ≠ ws_id ∧ b.focusConnect = false) := by
  obtain ⟨fr, mc, mr, fc, frr⟩ := b
  simp only at hfetch hconn hack
  subst hfetch hconn hack
  refine ⟨by simp [drag_end], ?_⟩
  cases hfo : (wss.find? (fun w => w.is_focused)).map (fun w => w.id) with
  | none =>
    exact ⟨by simp [drag_end, move_workspace_to_index, hne, hfo],
           by simp [move_workspace_to_index, hfo]⟩
  | some f =>
    by_cases hf : f = ws_id
    · subst hf
      cases fc <;>
        exact ⟨by simp [drag_end, move_workspace_to_index, hne, hfo],
               by simp [move_workspace_to_index, hfo]⟩
    · cases fc <;>
        exact ⟨by simp [drag_end, move_workspace_to_index, hne, hfo, hf],
               by simp [move_workspace_to_index, hfo, hf]⟩

/-- C3 witness: a drag from position 0 to position 1, with no workspace
focused, issues exactly the move command with target index 2 and succeeds. -/
theorem drag_end_protocol_witness :
    drag_end 1 0 0
      ⟨Except.ok (Resp.workspaces []), true, Except.ok Resp.handled, true,
       Except.ok Resp.handled⟩ = []
    ∧ drag_end 1 0 1
        ⟨Except.ok (Resp.workspaces []), true, Except.ok Resp.handled, true,
         Except.ok Resp.handled⟩ =
        Command.moveWorkspaceToIndex 1 2 ::
          (match (([] : List Workspace).find? (fun w => w.is_focused)).map (fun w => w.id) with
           | some f => if f ≠ 1 ∧ (true : Bool) = true then [Command.focusWorkspace f] else []
           | none => [])
    ∧ ((move_workspace_to_index 1 2
          ⟨Except.ok (Resp.workspaces []), true, Except.ok Resp.handled, true,
           Except.ok Resp.handled⟩).2 = Except.ok () ↔
        ¬ ∃ f, (([] : List Workspace).find? (fun w => w.is_focused)).map (fun w => w.id) = some f
             ∧ f ≠ 1 ∧ (true : Bool) = false) :=
  drag_end_protocol 1 0 1
    ⟨Except.ok (Resp.workspaces []), true, Except.ok Resp.handled, true,
     Except.ok Resp.handled⟩ [] (by decide) rfl rfl rfl

/-- C3 counterexample: with workspace 2 focused before a drag of workspace 1,
a move that is acknowledged but whose refocus connection cannot be
established issues the move command and no refocus, and the call returns an
error even though the move succeeded — so a refocus failure CAN affect the
move's success result, contrary to the claim. -/
theorem drag_end_refocus_counterexample :
    drag_end 1 0 1
      ⟨Except.ok (Resp.workspaces [⟨2, 1, none, none, true, true, false, some 7⟩]), true,
       Except.ok Resp.handled, false, Except.ok Resp.handled⟩ =
      [Command.moveWorkspaceToIndex 1 2]
    ∧ (move_workspace_to_index 1 2
        ⟨Except.ok (Resp.workspaces [⟨2, 1, none, none, true, true, false, some 7⟩]), true,
         Except.ok Resp.handled, false, Except.ok Resp.handled⟩).2 ≠ Except.ok () := by
  exact ⟨rfl, fun h => Except.noConfusion h⟩

end NiriWorkspaces
